import Mathlib

set_option maxHeartbeats 1000000

/-!
Verification of the report-content extraction engine of the MCP doc-analyzer
(src/doc_analyzer_mcp_server/src/main.py), shallowly embedded in Lean.
Paragraphs are (text, style-name) pairs; Python strings are Lean `String`,
Python `str.lower` is `Char.toLower` per character, Python `in` on strings is
substring containment, `str.strip()` truthiness is non-emptiness after
stripping whitespace. File and SMTP effects are modelled by an explicit
environment `Env`; an uncaught Python exception is an `Except.error`.
-/

/-- Substring containment over char lists: Python `needle in hay`. -/
def containsSub : List Char → List Char → Bool
  | [], needle => needle.isEmpty
  | c :: t, needle => needle.isPrefixOf (c :: t) || containsSub t needle

/-- Characters of a string, lower-cased: models Python `s.lower()`. -/
def lowerData (s : String) : List Char := s.data.map Char.toLower

/-- Python whitespace for `str.strip()` (space, tab, newline, CR, VT, FF). -/
def isPySpace (c : Char) : Bool :=
  c = (' ') || c = ('\t') || c = ('\n') || c = ('\r') || c = (Char.ofNat 11) || c = (Char.ofNat 12)

/-- Models Python `s.strip()`: drop whitespace from both ends. -/
def pyStrip (s : String) : String :=
  ⟨((s.data.dropWhile isPySpace).reverse.dropWhile isPySpace).reverse⟩

/-- Truthiness of `s.strip()` in Python: some non-whitespace character remains. -/
def hasContent (s : String) : Bool := !(pyStrip s).data.isEmpty

/-- A docx paragraph as used by main.py: its text and its style name
(`para.text`, `para.style.name`). -/
structure Paragraph where
  text : String
  style : String
deriving DecidableEq

/-- `summary_sections` from produce_report_summary (main.py line 77). -/
def SUMMARY_SECTIONS : List String :=
  [("Executive Summary"), ("Summary of Findings"), ("Conclusion"), ("Summary")]

/-- main.py line 90: `any(section.lower() in para.text.lower() for section in summary_sections)`. -/
def matchesSection (p : Paragraph) : Bool :=
  SUMMARY_SECTIONS.any (fun sec => containsSub (lowerData p.text) (lowerData sec))

/-- main.py line 98: the paragraph style name starts with the word Heading. -/
def isHeadingStyle (p : Paragraph) : Bool :=
  ("Heading").data.isPrefixOf p.style.data

/-- Python `"\n".join(l)`. -/
def joinNL : List String → String
  | [] => ("")
  | [s] => s
  | s :: rest => s ++ ("\n") ++ joinNL rest

/-- The capture loop of produce_report_summary (main.py lines 85-101):
state is the `is_capturing` flag and the accumulated `summary_paragraphs`;
a matching paragraph sets capturing and is skipped (`continue`); while
capturing, a Heading-styled paragraph with a non-empty accumulator ends the
scan (`break`), and otherwise non-blank text is appended. -/
def scan : List Paragraph → Bool → List String → List String
  | [], _, acc => acc
  | p :: rest, capturing, acc =>
    if matchesSection p then scan rest true acc
    else if capturing then
      if isHeadingStyle p && !acc.isEmpty then acc
      else if hasContent p.text then scan rest capturing (acc ++ [p.text])
      else scan rest capturing acc
    else scan rest capturing acc

/-- produce_report_summary on an already-decoded paragraph list
(main.py lines 84-108): join the captured section, or fall back to the
first 3 non-blank paragraphs prefixed by the no-summary marker. -/
def summaryOf (paras : List Paragraph) : String :=
  let acc := scan paras false []
  if !acc.isEmpty then joinNL acc
  else ("No summary section found. Preview:\n") ++
    joinNL (((paras.filter (fun p => hasContent p.text)).map (fun p => p.text)).take 3)

example : summaryOf
    [⟨("Executive Summary"), ("Heading 1")⟩,
     ⟨("Found critical issue A."), ("Normal")⟩,
     ⟨("Found medium issue B."), ("Normal")⟩,
     ⟨("Next Section"), ("Heading 1")⟩,
     ⟨("Found critical issue C."), ("Normal")⟩]
    = ("Found critical issue A.\nFound medium issue B.") := by decide

/-- The per-paragraph severity test shared by both tally helpers
(main.py lines 127 and 144): `sev.lower() in para.text.lower()`. -/
def sevHit (text sev : String) : Bool := containsSub (lowerData text) (lowerData sev)

/-- Python `counts[sev] += 1` on a dict represented as an insertion-ordered
association list: increment the first entry with the given key. -/
def bump : List (String × Nat) → String → List (String × Nat)
  | [], _ => []
  | (k, v) :: rest, s => if k = s then (k, v + 1) :: rest else (k, v) :: bump rest s

/-- Dict lookup with default 0 (every key we read is present in main.py). -/
def lookupD : List (String × Nat) → String → Nat
  | [], _ => 0
  | (k, v) :: rest, s => if k = s then v else lookupD rest s

/-- `{s: 0 for s in severities}` (main.py lines 123 and 141). -/
def zeroMap (sevs : List String) : List (String × Nat) := sevs.map (fun s => (s, 0))

/-- Severity list of extract_defect_insights (main.py line 121). -/
def SEVERITIES4 : List String := [("Critical"), ("Medium"), ("Low"), ("Informational")]

/-- Severity list of extract_high_critical_medium_counts (main.py line 140). -/
def SEVERITIES3 : List String := [("Critical"), ("High"), ("Medium")]

/-- Inner loop of extract_high_critical_medium_counts for one paragraph
(main.py lines 143-145): bump every severity the text mentions. -/
def tallyStep (sevs : List String) (m : List (String × Nat)) (text : String) :
    List (String × Nat) :=
  sevs.foldl (fun m sev => if sevHit text sev then bump m sev else m) m

/-- Inner loop of extract_defect_insights for one paragraph (main.py lines
126-129): bump the severity count and the running total together. -/
def insightsStep (sevs : List String) (st : Nat × List (String × Nat)) (text : String) :
    Nat × List (String × Nat) :=
  sevs.foldl (fun st sev => if sevHit text sev then (st.1 + 1, bump st.2 sev) else st) st

/-- extract_defect_insights on an already-decoded paragraph list
(main.py lines 121-130): returns (total, severity_counts). -/
def defectInsightsOf (paras : List Paragraph) : Nat × List (String × Nat) :=
  paras.foldl (fun st p => insightsStep SEVERITIES4 st p.text) (0, zeroMap SEVERITIES4)

/-- extract_high_critical_medium_counts on an already-decoded paragraph list
(main.py lines 140-146). -/
def hcmCountsOf (paras : List Paragraph) : List (String × Nat) :=
  paras.foldl (fun m p => tallyStep SEVERITIES3 m p.text) (zeroMap SEVERITIES3)

example : defectInsightsOf
    [⟨("Critical: RCE found."), ("Normal")⟩,
     ⟨("Medium: info leak."), ("Normal")⟩,
     ⟨("No issues here."), ("Normal")⟩]
    = (2, [(("Critical"), 1), (("Medium"), 1), (("Low"), 0), (("Informational"), 0)]) := by
  decide

/-- An uncaught Python exception, as observed at the interface boundary. -/
inductive PyErr where
  | fileNotFound (msg : String)
  | valueError (msg : String)
  | other (msg : String)
deriving DecidableEq

/-- Python `str(e)` / the `{e}` interpolation in the handlers. -/
def pyStr : PyErr → String
  | PyErr.fileNotFound m => m
  | PyErr.valueError m => m
  | PyErr.other m => m

/-- An email.message.EmailMessage after the four construction steps of
main.py lines 178-182 / 219-223. -/
structure EmailMsg where
  subject : String
  sender : String
  rcpt : String
  content : String
deriving DecidableEq

/-- The external world: filesystem existence, text reads, docx decoding,
the EmailMessage construction, and the SMTP transport, each an oracle the
program calls into. `buildMsg subject sender rcpt body` stands for the
four construction steps of main.py lines 178-182 / 219-223; the Python
email library can raise there (its header-store guard rejects values whose
str.splitlines has more than one line, and address headers can be rejected
by the address parser), and since that failure condition is library
behaviour rather than code of this repository, it is left abstract: an
environment chooses when construction fails and with which exception. -/
structure Env where
  fileExists : String → Bool
  readFile : String → Except PyErr String
  openDocx : String → Except PyErr (List Paragraph)
  buildMsg : String → String → String → String → Except PyErr EmailMsg
  smtpRun : String → Nat → String → String → EmailMsg → Except PyErr Unit

/-- REPORTS_DIR (main.py line 13), abstracted to a fixed directory name. -/
def REPORTS_DIR : String := ("reports")

/-- `os.path.join(REPORTS_DIR, filename)` (main.py line 16). -/
def reportPath (filename : String) : String := REPORTS_DIR ++ ("/") ++ filename

/-- get_report_path (main.py lines 15-19): raises FileNotFoundError when the
path does not exist. -/
def get_report_path (env : Env) (filename : String) : Except PyErr String :=
  let file_path := reportPath filename
  if env.fileExists file_path then Except.ok file_path
  else Except.error (PyErr.fileNotFound
    (("Report file \x27") ++ filename ++ ("\x27 not found in reports directory.")))

/-- The shared two-step document load: `get_report_path` then
`docx.Document(file_path)` (e.g. main.py lines 74-75). -/
def loadReport (env : Env) (filename : String) : Except PyErr (List Paragraph) :=
  match get_report_path env filename with
  | Except.ok p => env.openDocx p
  | Except.error e => Except.error e

/-- read_text_report (main.py lines 22-39): whole body inside try/except,
FileNotFoundError reported as str(e), anything else as an error-occurred string. -/
def read_text_report (env : Env) (filename : String) : String :=
  match (match get_report_path env filename with
         | Except.ok p => env.readFile p
         | Except.error e => Except.error e) with
  | Except.ok content => content
  | Except.error (PyErr.fileNotFound m) => m
  | Except.error e => ("An error occurred: ") ++ pyStr e

/-- read_docx_report (main.py lines 42-59). -/
def read_docx_report (env : Env) (filename : String) : String :=
  match loadReport env filename with
  | Except.ok paras => joinNL (paras.map (fun p => p.text))
  | Except.error (PyErr.fileNotFound m) => m
  | Except.error e => ("An error occurred: ") ++ pyStr e

/-- produce_report_summary (main.py lines 62-113), the try/except wrapper
around document load and `summaryOf`. -/
def produce_report_summary (env : Env) (filename : String) : String :=
  match loadReport env filename with
  | Except.ok paras => summaryOf paras
  | Except.error (PyErr.fileNotFound m) => m
  | Except.error e => ("An error occurred: ") ++ pyStr e

/-- extract_defect_insights (main.py lines 116-132): any failure yields
total 0 and the all-zero four-tier map. -/
def extract_defect_insights (env : Env) (filename : String) : Nat × List (String × Nat) :=
  match loadReport env filename with
  | Except.ok paras => defectInsightsOf paras
  | Except.error _ => (0, zeroMap SEVERITIES4)

/-- extract_high_critical_medium_counts (main.py lines 135-148): any failure
yields the all-zero three-tier map. -/
def extract_high_critical_medium_counts (env : Env) (filename : String) :
    List (String × Nat) :=
  match loadReport env filename with
  | Except.ok paras => hcmCountsOf paras
  | Except.error _ => zeroMap SEVERITIES3

/-- Little-endian decimal digits of a positive number; the first argument is
fuel, always called with fuel ≥ the number so the zero-fuel case is dead. -/
def natCharsRevAux : Nat → Nat → List Char
  | _, 0 => []
  | 0, _ + 1 => []
  | fuel + 1, n + 1 => Nat.digitChar ((n + 1) % 10) :: natCharsRevAux fuel ((n + 1) / 10)

/-- Decimal digit characters of a number, most significant first:
Python `str(n)` for a non-negative int. -/
def natChars (n : Nat) : List Char :=
  if n = 0 then [('0')] else (natCharsRevAux n n).reverse

/-- Python `str(n)` as a Lean string. -/
def natStr (n : Nat) : String := ⟨natChars n⟩

/-- The body built by send_report_summary_email (main.py lines 172-177):
the Report Composer of the spec. `severity_counts.items()` iterates in
insertion order, which the association list preserves. -/
def composeBody (summary : String) (total : Nat) (severity_counts : List (String × Nat))
    (custom_message : Option String) : String :=
  let insights := ("Total Defects: ") ++ natStr total ++ ("\n") ++
    joinNL (severity_counts.map (fun kv => kv.1 ++ (": ") ++ natStr kv.2))
  let body := ("Report Summary:\n") ++ summary ++ ("\n\nInsights:\n") ++ insights
  let cm := custom_message.getD ("")
  if cm = ("") then body else cm ++ ("\n\n") ++ body

/-- sendmail (main.py lines 192-231). The credential check precedes
everything else; the EmailMessage construction (lines 219-223, the
`Env.buildMsg` oracle, with From set to smtp_user and To to the recipient)
happens OUTSIDE the try block, so whatever exception the email library
raises there propagates as `Except.error`; the SMTP block (lines 224-231)
is inside try/except. -/
def sendmail (env : Env) (recipient subject body smtp_server : String) (smtp_port : Nat)
    (smtp_user smtp_password : String) : Except PyErr String :=
  if smtp_user = ("") ∨ smtp_password = ("") then
    Except.ok ("SMTP username and password must be provided.")
  else
    match env.buildMsg subject smtp_user recipient body with
    | Except.error e => Except.error e
    | Except.ok msg =>
      match env.smtpRun smtp_server smtp_port smtp_user smtp_password msg with
      | Except.ok _ => Except.ok (("Email sent to ") ++ recipient ++ (" successfully."))
      | Except.error e => Except.ok (("Failed to send email: ") ++ pyStr e)

/-- send_report_summary_email (main.py lines 150-190). Same shape as
`sendmail`: credential check first, then the summary/insights passes (each
of which catches its own failures), then the message construction outside
the try block (subject is built from the filename, From is smtp_user,
To is the recipient), then the guarded SMTP block. -/
def send_report_summary_email (env : Env) (recipient filename smtp_server : String)
    (smtp_port : Nat) (smtp_user smtp_password : String)
    (custom_message : Option String) : Except PyErr String :=
  if smtp_user = ("") ∨ smtp_password = ("") then
    Except.ok ("SMTP username and password must be provided.")
  else
    let summary := produce_report_summary env filename
    let ti := extract_defect_insights env filename
    let _hcm := extract_high_critical_medium_counts env filename
    let body := composeBody summary ti.1 ti.2 custom_message
    match env.buildMsg (("Penetration Test Report Summary: ") ++ filename)
        smtp_user recipient body with
    | Except.error e => Except.error e
    | Except.ok msg =>
      match env.smtpRun smtp_server smtp_port smtp_user smtp_password msg with
      | Except.ok _ => Except.ok (("Email sent to ") ++ recipient ++ (" successfully."))
      | Except.error e => Except.ok (("Failed to send email: ") ++ pyStr e)

/-- Whether an operation returned a result string rather than propagating. -/
def exceptOk : Except PyErr String → Bool
  | Except.ok _ => true
  | Except.error _ => false

/-- A concrete environment for witnesses and the counterexample: no file
exists, every read and decode fails, and the SMTP transport accepts
everything. Its construction oracle agrees with the verified CPython
outcomes at the concrete inputs used in this file: a header value
containing a linefeed or carriage return is rejected with the ValueError
of the header-store guard, and the plain ASCII header values of the
witnesses are accepted. -/
def env0 : Env :=
  ⟨fun _ => false,
   fun _ => Except.error (PyErr.other ("io failure")),
   fun _ => Except.error (PyErr.other ("decode failure")),
   fun subject sender rcpt body =>
     if (subject.data.all (fun c => c != ('\n') && c != ('\r')))
         && (sender.data.all (fun c => c != ('\n') && c != ('\r')))
         && (rcpt.data.all (fun c => c != ('\n') && c != ('\r'))) then
       Except.ok ⟨subject, sender, rcpt, body⟩
     else
       Except.error (PyErr.valueError
         ("Header values may not contain linefeed or carriage return characters")),
   fun _ _ _ _ _ => Except.ok ()⟩

/-- Decimal digit character test. -/
def isDigitC (c : Char) : Bool := 48 ≤ c.toNat && c.toNat ≤ 57

/-- Value of a little-endian list of decimal digit characters. -/
def valOfLE (ds : List Char) : Nat := ds.foldr (fun c acc => (c.toNat - 48) + 10 * acc) 0

/-- Strip a required prefix from a char list. -/
def stripPrefixChars : List Char → List Char → Option (List Char)
  | l, [] => some l
  | [], _ :: _ => none
  | c :: l, p :: ps => if c = p then stripPrefixChars l ps else none

/-- Read a non-empty maximal digit run from the front of a reversed body,
returning its value and the unread remainder. -/
def splitDigitsRev (r : List Char) : Option (Nat × List Char) :=
  let ds := r.takeWhile isDigitC
  if ds.isEmpty then none else some (valOfLE ds, r.dropWhile isDigitC)

/-- True when the list does not start with a digit character. -/
def headNotDigit : List Char → Bool
  | [] => true
  | c :: _ => !isDigitC c

/-- The labeled fields of the composed body, as char lists. -/
def LAB_P : List Char := ("Report Summary:\n").data

/-- Field label preceding the total. -/
def LAB_T : List Char := ("\n\nInsights:\nTotal Defects: ").data

/-- Field label preceding the Critical count. -/
def LAB_C : List Char := ("\nCritical: ").data

/-- Field label preceding the Medium count. -/
def LAB_M : List Char := ("\nMedium: ").data

/-- Field label preceding the Low count. -/
def LAB_L : List Char := ("\nLow: ").data

/-- Field label preceding the Informational count. -/
def LAB_I : List Char := ("\nInformational: ").data

/-- Split a composed body back on its labeled fields, working from the end
(the tail after the final Insights delimiter has a fixed shape, so the
summary may itself contain any text, including look-alike delimiters):
recover (summary, total, critical, medium, low, informational). -/
def parseBody (body : String) : Option (String × Nat × Nat × Nat × Nat × Nat) :=
  (splitDigitsRev body.data.reverse).bind (fun pi =>
  (stripPrefixChars pi.2 LAB_I.reverse).bind (fun r2 =>
  (splitDigitsRev r2).bind (fun pl =>
  (stripPrefixChars pl.2 LAB_L.reverse).bind (fun r4 =>
  (splitDigitsRev r4).bind (fun pm =>
  (stripPrefixChars pm.2 LAB_M.reverse).bind (fun r6 =>
  (splitDigitsRev r6).bind (fun pc =>
  (stripPrefixChars pc.2 LAB_C.reverse).bind (fun r8 =>
  (splitDigitsRev r8).bind (fun pt =>
  (stripPrefixChars pt.2 LAB_T.reverse).bind (fun r10 =>
  (stripPrefixChars r10.reverse LAB_P).bind (fun s =>
  some (⟨s⟩, pt.1, pc.1, pm.1, pl.1, pi.1))))))))))))

example : parseBody (composeBody ("the summary\nline two") 23
    [(("Critical"), 10), (("Medium"), 7), (("Low"), 0), (("Informational"), 6)] none)
    = some (("the summary\nline two"), 23, 10, 7, 0, 6) := by decide

/-- Occurrences of a key in a severity list. -/
def occ (k : String) : List String → Nat
  | [] => 0
  | s :: rest => (if s = k then 1 else 0) + occ k rest

/-- Paragraphs whose text mentions the given severity. -/
def countHits (k : String) : List Paragraph → Nat
  | [] => 0
  | p :: rest => (if sevHit p.text k then 1 else 0) + countHits k rest

/-- Severities from the list that one paragraph text mentions. -/
def perParaHits : List String → String → Nat
  | [], _ => 0
  | s :: rest, t => (if sevHit t s then 1 else 0) + perParaHits rest t

/-- Total increments of extract_defect_insights: one per (paragraph,
mentioned severity) pair. -/
def totalHits4 : List Paragraph → Nat
  | [] => 0
  | p :: rest => perParaHits SEVERITIES4 p.text + totalHits4 rest

theorem bump_keys (m : List (String × Nat)) (s : String) :
    (bump m s).map Prod.fst = m.map Prod.fst := by
  induction m with
  | nil => rfl
  | cons hd tl ih =>
    obtain ⟨k, v⟩ := hd
    by_cases h : k = s
    · simp [bump, h]
    · simp [bump, h, ih]

theorem lookupD_bump_self (m : List (String × Nat)) (s : String)
    (h : s ∈ m.map Prod.fst) : lookupD (bump m s) s = lookupD m s + 1 := by
  induction m with
  | nil => simp at h
  | cons hd tl ih =>
    obtain ⟨k, v⟩ := hd
    by_cases hk : k = s
    · subst hk; simp [bump, lookupD]
    · simp only [bump, if_neg hk, lookupD]
      apply ih
      simp only [List.map_cons, List.mem_cons] at h
      rcases h with h | h
      · exact absurd h.symm hk
      · exact h

theorem lookupD_bump_ne (m : List (String × Nat)) (s k : String) (h : k ≠ s) :
    lookupD (bump m s) k = lookupD m k := by
  induction m with
  | nil => rfl
  | cons hd tl ih =>
    obtain ⟨k2, v⟩ := hd
    by_cases h2 : k2 = s
    · subst h2
      simp only [bump, if_pos rfl, lookupD]
      rw [if_neg (fun he => h he.symm), if_neg (fun he => h he.symm)]
    · simp only [bump, if_neg h2, lookupD]
      by_cases h3 : k2 = k
      · rw [if_pos h3, if_pos h3]
      · rw [if_neg h3, if_neg h3, ih]

theorem lookupD_zeroMap (sevs : List String) (k : String) :
    lookupD (zeroMap sevs) k = 0 := by
  induction sevs with
  | nil => rfl
  | cons s rest ih =>
    simp only [zeroMap, List.map_cons, lookupD] at ih ⊢
    by_cases h : s = k
    · rw [if_pos h]
    · rw [if_neg h]; exact ih

theorem tallyStep_keys (sevs : List String) (m : List (String × Nat)) (t : String) :
    (tallyStep sevs m t).map Prod.fst = m.map Prod.fst := by
  induction sevs generalizing m with
  | nil => rfl
  | cons s rest ih =>
    show (tallyStep rest (if sevHit t s then bump m s else m) t).map Prod.fst = _
    rw [ih]
    by_cases hs : sevHit t s
    · rw [if_pos hs, bump_keys]
    · rw [if_neg hs]

theorem lookupD_tallyStep (sevs : List String) (t : String) (m : List (String × Nat))
    (k : String) (h : k ∈ m.map Prod.fst) :
    lookupD (tallyStep sevs m t) k
      = lookupD m k + (if sevHit t k then occ k sevs else 0) := by
  induction sevs generalizing m with
  | nil => simp [tallyStep, occ]
  | cons s rest ih =>
    have hkeys : k ∈ ((if sevHit t s then bump m s else m)).map Prod.fst := by
      by_cases hs : sevHit t s
      · rw [if_pos hs, bump_keys]; exact h
      · rw [if_neg hs]; exact h
    have step : tallyStep (s :: rest) m t
        = tallyStep rest (if sevHit t s then bump m s else m) t := rfl
    rw [step, ih _ hkeys]
    by_cases hsk : s = k
    · subst hsk
      by_cases hs : sevHit t s
      · rw [if_pos hs, lookupD_bump_self m s h]
        simp [occ, hs]
        omega
      · rw [if_neg hs]
        simp [occ, hs]
    · by_cases hs : sevHit t s
      · rw [if_pos hs, lookupD_bump_ne m s k (fun he => hsk he.symm)]
        simp [occ, hsk]
      · rw [if_neg hs]
        simp [occ, hsk]

theorem keys_tallyFold (sevs : List String) (paras : List Paragraph)
    (m : List (String × Nat)) :
    ((paras.foldl (fun m p => tallyStep sevs m p.text) m)).map Prod.fst
      = m.map Prod.fst := by
  induction paras generalizing m with
  | nil => rfl
  | cons p rest ih => rw [List.foldl_cons, ih, tallyStep_keys]

theorem lookupD_tallyFold (sevs : List String) (paras : List Paragraph)
    (m : List (String × Nat)) (k : String) (h : k ∈ m.map Prod.fst) :
    lookupD (paras.foldl (fun m p => tallyStep sevs m p.text) m) k
      = lookupD m k + occ k sevs * countHits k paras := by
  induction paras generalizing m with
  | nil => simp [countHits]
  | cons p rest ih =>
    rw [List.foldl_cons, ih _ (by rw [tallyStep_keys]; exact h),
      lookupD_tallyStep sevs p.text m k h]
    by_cases hp : sevHit p.text k
    · simp only [countHits, if_pos hp]; ring
    · simp only [countHits, if_neg hp]; ring

theorem insightsStep_snd (sevs : List String) (st : Nat × List (String × Nat))
    (t : String) : (insightsStep sevs st t).2 = tallyStep sevs st.2 t := by
  induction sevs generalizing st with
  | nil => rfl
  | cons s rest ih =>
    show (insightsStep rest (if sevHit t s then (st.1 + 1, bump st.2 s) else st) t).2 = _
    rw [ih]
    show _ = tallyStep rest (if sevHit t s then bump st.2 s else st.2) t
    by_cases hs : sevHit t s
    · rw [if_pos hs, if_pos hs]
    · rw [if_neg hs, if_neg hs]

theorem insightsStep_fst (sevs : List String) (st : Nat × List (String × Nat))
    (t : String) : (insightsStep sevs st t).1 = st.1 + perParaHits sevs t := by
  induction sevs generalizing st with
  | nil => rfl
  | cons s rest ih =>
    show (insightsStep rest (if sevHit t s then (st.1 + 1, bump st.2 s) else st) t).1 = _
    rw [ih]
    by_cases hs : sevHit t s
    · rw [if_pos hs]
      simp only [perParaHits, if_pos hs]
      omega
    · rw [if_neg hs]
      simp only [perParaHits, if_neg hs]
      omega

theorem insightsFold_fst (paras : List Paragraph) (st : Nat × List (String × Nat)) :
    (paras.foldl (fun st p => insightsStep SEVERITIES4 st p.text) st).1
      = st.1 + totalHits4 paras := by
  induction paras generalizing st with
  | nil => simp [totalHits4]
  | cons p rest ih =>
    rw [List.foldl_cons, ih, insightsStep_fst]
    simp only [totalHits4]
    omega

theorem insightsFold_snd (paras : List Paragraph) (st : Nat × List (String × Nat)) :
    (paras.foldl (fun st p => insightsStep SEVERITIES4 st p.text) st).2
      = paras.foldl (fun m p => tallyStep SEVERITIES4 m p.text) st.2 := by
  induction paras generalizing st with
  | nil => rfl
  | cons p rest ih => rw [List.foldl_cons, ih, insightsStep_snd, List.foldl_cons]

theorem totalHits4_split (paras : List Paragraph) :
    totalHits4 paras = countHits ("Critical") paras + countHits ("Medium") paras
      + countHits ("Low") paras + countHits ("Informational") paras := by
  induction paras with
  | nil => rfl
  | cons p rest ih =>
    simp only [totalHits4, countHits, ih, SEVERITIES4, perParaHits]
    omega

theorem zeroMap_keys (sevs : List String) : (zeroMap sevs).map Prod.fst = sevs := by
  induction sevs with
  | nil => rfl
  | cons s rest ih => simp [zeroMap] at ih ⊢; exact ih

theorem lookup_insights4 (paras : List Paragraph) (k : String)
    (hk : k ∈ SEVERITIES4) :
    lookupD (defectInsightsOf paras).2 k = countHits k paras := by
  have hocc : occ k SEVERITIES4 = 1 := by fin_cases hk <;> decide
  have hmem : k ∈ (zeroMap SEVERITIES4).map Prod.fst := by
    rw [zeroMap_keys]; exact hk
  rw [show (defectInsightsOf paras).2
      = paras.foldl (fun m p => tallyStep SEVERITIES4 m p.text) (zeroMap SEVERITIES4)
    from insightsFold_snd paras (0, zeroMap SEVERITIES4)]
  rw [lookupD_tallyFold SEVERITIES4 paras (zeroMap SEVERITIES4) k hmem,
    lookupD_zeroMap, hocc]
  omega

theorem lookup_hcm (paras : List Paragraph) (k : String)
    (hk : k ∈ SEVERITIES3) :
    lookupD (hcmCountsOf paras) k = countHits k paras := by
  have hocc : occ k SEVERITIES3 = 1 := by fin_cases hk <;> decide
  have hmem : k ∈ (zeroMap SEVERITIES3).map Prod.fst := by
    rw [zeroMap_keys]; exact hk
  rw [hcmCountsOf, lookupD_tallyFold SEVERITIES3 paras (zeroMap SEVERITIES3) k hmem,
    lookupD_zeroMap, hocc]
  omega

theorem lookupD_of_mem (m : List (String × Nat)) (kv : String × Nat)
    (hnd : (m.map Prod.fst).Nodup) (h : kv ∈ m) : lookupD m kv.1 = kv.2 := by
  induction m with
  | nil => simp at h
  | cons hd tl ih =>
    obtain ⟨k, v⟩ := hd
    rcases List.mem_cons.mp h with h1 | h1
    · subst h1; simp [lookupD]
    · have hk : ¬ k = kv.1 := by
        intro he
        have : kv.1 ∈ tl.map Prod.fst := List.mem_map_of_mem Prod.fst h1
        rw [← he] at this
        exact (List.nodup_cons.mp (by simpa using hnd)).1 this
      simp only [lookupD, if_neg hk]
      exact ih (List.nodup_cons.mp (by simpa using hnd)).2 h1

theorem countHits_le_length (k : String) (paras : List Paragraph) :
    countHits k paras ≤ paras.length := by
  induction paras with
  | nil => simp [countHits]
  | cons p rest ih =>
    simp only [countHits, List.length_cons]
    by_cases h : sevHit p.text k
    · rw [if_pos h]; omega
    · rw [if_neg h]; omega

theorem scan_no_match (paras : List Paragraph)
    (h : ∀ p ∈ paras, matchesSection p = false) (acc : List String) :
    scan paras false acc = acc := by
  induction paras with
  | nil => rfl
  | cons p rest ih =>
    have hp : matchesSection p = false := h p (List.mem_cons_self p rest)
    simp only [scan, hp, Bool.false_eq_true, if_false]
    exact ih (fun q hq => h q (List.mem_cons_of_mem p hq))

theorem scan_extends (paras : List Paragraph) (b : Bool) (acc : List String) :
    ∃ δ, scan paras b acc = acc ++ δ ∧
      List.Sublist δ ((paras.filter (fun p => !matchesSection p)).map (fun p => p.text)) := by
  induction paras generalizing b acc with
  | nil => exact ⟨[], by simp [scan]⟩
  | cons p rest ih =>
    by_cases hm : matchesSection p
    · obtain ⟨δ, h1, h2⟩ := ih true acc
      refine ⟨δ, ?_, ?_⟩
      · simpa [scan, hm] using h1
      · simpa [List.filter_cons, hm] using h2
    · have hm2 : matchesSection p = false := by simpa using hm
      cases b with
      | false =>
        obtain ⟨δ, h1, h2⟩ := ih false acc
        refine ⟨δ, by simpa [scan, hm2] using h1, ?_⟩
        simp only [List.filter_cons, hm2]
        simpa using List.Sublist.cons p.text h2
      | true =>
        by_cases hbreak : (isHeadingStyle p && !acc.isEmpty) = true
        · refine ⟨[], by simp [scan, hm2, hbreak], List.nil_sublist _⟩
        · have hbreak2 : (isHeadingStyle p && !acc.isEmpty) = false := by
            simpa using hbreak
          by_cases hc : hasContent p.text
          · obtain ⟨δ, h1, h2⟩ := ih true (acc ++ [p.text])
            refine ⟨p.text :: δ, ?_, ?_⟩
            · rw [show scan (p :: rest) true acc = scan rest true (acc ++ [p.text]) by
                simp [scan, hm2, hbreak2, hc]]
              rw [h1, List.append_assoc]
              rfl
            · simp only [List.filter_cons, hm2]
              simpa using List.Sublist.cons₂ p.text h2
          · have hc2 : hasContent p.text = false := by simpa using hc
            obtain ⟨δ, h1, h2⟩ := ih true acc
            refine ⟨δ, by simpa [scan, hm2, hbreak2, hc2] using h1, ?_⟩
            simp only [List.filter_cons, hm2]
            simpa using List.Sublist.cons p.text h2

/-- C1: on the five-paragraph example (heading, two findings, next heading,
a further finding) the summary extractor returns exactly the two findings of
the matched section joined by a newline: capture starts after the matching
heading (excluded), non-empty paragraphs are appended, and the next
heading-tagged paragraph with a non-empty accumulator stops the scan,
excluding it and everything after it. -/
theorem claim_C1 : summaryOf
    [⟨("Executive Summary"), ("Heading 1")⟩,
     ⟨("Found critical issue A."), ("Normal")⟩,
     ⟨("Found medium issue B."), ("Normal")⟩,
     ⟨("Next Section"), ("Heading 1")⟩,
     ⟨("Found critical issue C."), ("Normal")⟩]
    = ("Found critical issue A.\nFound medium issue B.") := by decide

/-- C2: for every paragraph sequence, each severity tally returns a map
whose key list is exactly its requested tier list (no tier omitted), and
every count is at most the number of paragraphs. -/
theorem claim_C2 : ∀ paras : List Paragraph,
    ((defectInsightsOf paras).2.map Prod.fst = SEVERITIES4
      ∧ ∀ kv ∈ (defectInsightsOf paras).2, kv.2 ≤ paras.length)
    ∧ ((hcmCountsOf paras).map Prod.fst = SEVERITIES3
      ∧ ∀ kv ∈ hcmCountsOf paras, kv.2 ≤ paras.length) := by
  intro paras
  have hkeys4 : (defectInsightsOf paras).2.map Prod.fst = SEVERITIES4 := by
    rw [show (defectInsightsOf paras).2
        = paras.foldl (fun m p => tallyStep SEVERITIES4 m p.text) (zeroMap SEVERITIES4)
      from insightsFold_snd paras (0, zeroMap SEVERITIES4)]
    rw [keys_tallyFold, zeroMap_keys]
  have hkeys3 : (hcmCountsOf paras).map Prod.fst = SEVERITIES3 := by
    rw [hcmCountsOf, keys_tallyFold, zeroMap_keys]
  refine ⟨⟨hkeys4, ?_⟩, hkeys3, ?_⟩
  · intro kv hkv
    have hnd : ((defectInsightsOf paras).2.map Prod.fst).Nodup := by
      rw [hkeys4]; decide
    have hv := lookupD_of_mem _ kv hnd hkv
    have hk1 : kv.1 ∈ SEVERITIES4 := by
      rw [← hkeys4]; exact List.mem_map_of_mem Prod.fst hkv
    rw [← hv, lookup_insights4 paras kv.1 hk1]
    exact countHits_le_length kv.1 paras
  · intro kv hkv
    have hnd : ((hcmCountsOf paras).map Prod.fst).Nodup := by rw [hkeys3]; decide
    have hv := lookupD_of_mem _ kv hnd hkv
    have hk1 : kv.1 ∈ SEVERITIES3 := by
      rw [← hkeys3]; exact List.mem_map_of_mem Prod.fst hkv
    rw [← hv, lookup_hcm paras kv.1 hk1]
    exact countHits_le_length kv.1 paras

/-- Witness for C2 at a one-paragraph document mentioning Critical. -/
theorem witness_C2 :
    ((("Critical"), 1) : String × Nat) ∈ (defectInsightsOf [⟨("Critical bug"), ("Normal")⟩]).2
    ∧ ((("Critical"), 1) : String × Nat).2
        ≤ ([⟨("Critical bug"), ("Normal")⟩] : List Paragraph).length :=
  ⟨by decide, (claim_C2 [⟨("Critical bug"), ("Normal")⟩]).1.2 ((("Critical"), 1)) (by decide)⟩

/-- C3: when no paragraph text case-insensitively contains any target
section name, the extractor returns the fixed marker followed by the first
at-most-3 non-blank paragraph texts joined with newlines (for the empty
document this is the marker with an empty preview). -/
theorem claim_C3 : ∀ paras : List Paragraph, (∀ p ∈ paras, matchesSection p = false) →
    summaryOf paras = ("No summary section found. Preview:\n") ++
      joinNL (((paras.filter (fun p => hasContent p.text)).map (fun p => p.text)).take 3) := by
  intro paras h
  have hs : scan paras false [] = [] := scan_no_match paras h []
  simp only [summaryOf, hs]
  rfl

/-- Witness for C3 at a one-paragraph document with no section match. -/
theorem witness_C3 : summaryOf [⟨("hello"), ("Normal")⟩]
    = ("No summary section found. Preview:\nhello") := by
  rw [claim_C3 [⟨("hello"), ("Normal")⟩] (by decide)]
  decide

/-- C4: the total of the 4-tier insight pass equals the sum of the four
tier counts of that same pass; the definition of `defectInsightsOf` never
consults the 3-tier pass. -/
theorem claim_C4 : ∀ paras : List Paragraph,
    (defectInsightsOf paras).1
      = lookupD (defectInsightsOf paras).2 ("Critical")
        + lookupD (defectInsightsOf paras).2 ("Medium")
        + lookupD (defectInsightsOf paras).2 ("Low")
        + lookupD (defectInsightsOf paras).2 ("Informational") := by
  intro paras
  rw [lookup_insights4 paras _ (by decide), lookup_insights4 paras _ (by decide),
    lookup_insights4 paras _ (by decide), lookup_insights4 paras _ (by decide)]
  rw [show (defectInsightsOf paras).1 = 0 + totalHits4 paras
    from insightsFold_fst paras (0, zeroMap SEVERITIES4)]
  rw [totalHits4_split]
  omega

/-- C9: a paragraph matching a target section name is never part of the
captured output (the capture is a sublist of the texts of the non-matching
paragraphs), is never a section boundary (the scan continues with capturing set
and the accumulator untouched, whatever the state), and consecutive
matching sections therefore merge, as on the concrete two-heading example. -/
theorem claim_C9 :
    (∀ paras : List Paragraph,
      List.Sublist (scan paras false [])
        ((paras.filter (fun p => !matchesSection p)).map (fun p => p.text)))
    ∧ (∀ (rest : List Paragraph) (b : Bool) (acc : List String) (p : Paragraph),
        matchesSection p = true → scan (p :: rest) b acc = scan rest true acc)
    ∧ summaryOf [⟨("Executive Summary"), ("Heading 1")⟩, ⟨("A"), ("Normal")⟩,
        ⟨("Conclusion"), ("Heading 1")⟩, ⟨("B"), ("Normal")⟩] = ("A\nB") := by
  refine ⟨?_, ?_, by decide⟩
  · intro paras
    obtain ⟨δ, h1, h2⟩ := scan_extends paras false []
    rw [h1]
    simpa using h2
  · intro rest b acc p hp
    simp [scan, hp]

/-- Witness for C9: the scan step at a matching heading-styled paragraph
with a non-empty accumulator continues capturing instead of breaking. -/
theorem witness_C9 : scan [⟨("Summary"), ("Heading 1")⟩] true [("x")]
    = scan [] true [("x")] :=
  claim_C9.2.1 [] true [("x")] ⟨("Summary"), ("Heading 1")⟩ (by decide)

theorem data_append (a b : String) : (a ++ b).data = a.data ++ b.data := rfl

theorem data_mk (l : List Char) : (String.mk l).data = l := rfl

theorem digitChar_isDigit (d : Nat) (h : d < 10) : isDigitC (Nat.digitChar d) = true := by
  interval_cases d <;> decide

theorem digitChar_toNat (d : Nat) (h : d < 10) : (Nat.digitChar d).toNat - 48 = d := by
  interval_cases d <;> decide

theorem natCharsRevAux_eq (fuel : Nat) : ∀ n, n ≤ fuel →
    natCharsRevAux fuel n = (Nat.digits 10 n).map Nat.digitChar := by
  induction fuel with
  | zero =>
    intro n hn
    have h0 : n = 0 := Nat.le_zero.mp hn
    subst h0
    simp [natCharsRevAux]
  | succ fuel ih =>
    intro n hn
    cases n with
    | zero => simp [natCharsRevAux]
    | succ m =>
      have hdiv : (m + 1) / 10 ≤ fuel := by
        have := Nat.div_lt_self (Nat.succ_pos m) (by norm_num : 1 < 10)
        omega
      rw [show natCharsRevAux (fuel + 1) (m + 1)
          = Nat.digitChar ((m + 1) % 10) :: natCharsRevAux fuel ((m + 1) / 10) from rfl]
      rw [ih _ hdiv, Nat.digits_def' (by norm_num : 1 < 10) (Nat.succ_pos m)]
      rfl

theorem natChars_all_digits (n : Nat) : ∀ ch ∈ natChars n, isDigitC ch = true := by
  intro ch hch
  by_cases h0 : n = 0
  · subst h0
    simp [natChars] at hch
    subst hch
    decide
  · rw [natChars, if_neg h0, natCharsRevAux_eq n n (le_refl n), List.mem_reverse] at hch
    obtain ⟨d, hd, rfl⟩ := List.mem_map.mp hch
    exact digitChar_isDigit d (Nat.digits_lt_base (by norm_num) hd)

theorem natChars_ne_nil (n : Nat) : natChars n ≠ [] := by
  by_cases h0 : n = 0
  · subst h0; decide
  · rw [natChars, if_neg h0]
    intro hcon
    rw [List.reverse_eq_nil_iff, natCharsRevAux_eq n n (le_refl n),
      List.map_eq_nil_iff] at hcon
    exact (Nat.digits_ne_nil_iff_ne_zero.mpr h0) hcon

theorem valOfLE_map_digitChar (ds : List Nat) (h : ∀ d ∈ ds, d < 10) :
    valOfLE (ds.map Nat.digitChar) = Nat.ofDigits 10 ds := by
  induction ds with
  | nil => simp [valOfLE, Nat.ofDigits_nil]
  | cons d rest ih =>
    have hd : d < 10 := h d (List.mem_cons_self d rest)
    rw [List.map_cons,
      show valOfLE (Nat.digitChar d :: rest.map Nat.digitChar)
        = ((Nat.digitChar d).toNat - 48) + 10 * valOfLE (rest.map Nat.digitChar) from rfl,
      ih (fun x hx => h x (List.mem_cons_of_mem d hx)), digitChar_toNat d hd,
      Nat.ofDigits_cons]

theorem valOfLE_natChars (n : Nat) : valOfLE ((natChars n).reverse) = n := by
  by_cases h0 : n = 0
  · subst h0; decide
  · rw [natChars, if_neg h0, List.reverse_reverse, natCharsRevAux_eq n n (le_refl n),
      valOfLE_map_digitChar _ (fun d hd => Nat.digits_lt_base (by norm_num) hd),
      Nat.ofDigits_digits]

theorem takeWhile_digits_append (a b : List Char) (ha : ∀ ch ∈ a, isDigitC ch = true)
    (hb : headNotDigit b = true) : (a ++ b).takeWhile isDigitC = a := by
  induction a with
  | nil =>
    cases b with
    | nil => rfl
    | cons ch tl =>
      have hc : isDigitC ch = false := by simpa [headNotDigit] using hb
      simp [List.takeWhile_cons, hc]
  | cons x xs ih =>
    have hx : isDigitC x = true := ha x (List.mem_cons_self x xs)
    simp [List.takeWhile_cons, hx, ih (fun ch hch => ha ch (List.mem_cons_of_mem x hch))]

theorem dropWhile_digits_append (a b : List Char) (ha : ∀ ch ∈ a, isDigitC ch = true)
    (hb : headNotDigit b = true) : (a ++ b).dropWhile isDigitC = b := by
  induction a with
  | nil =>
    cases b with
    | nil => rfl
    | cons ch tl =>
      have hc : isDigitC ch = false := by simpa [headNotDigit] using hb
      simp [List.dropWhile_cons, hc]
  | cons x xs ih =>
    have hx : isDigitC x = true := ha x (List.mem_cons_self x xs)
    simp [List.dropWhile_cons, hx, ih (fun ch hch => ha ch (List.mem_cons_of_mem x hch))]

theorem isEmpty_false_of_ne_nil (l : List Char) (h : l ≠ []) : l.isEmpty = false := by
  cases l with
  | nil => exact absurd rfl h
  | cons a t => rfl

theorem hnd_append (a r : List Char) (h1 : a ≠ []) (h2 : headNotDigit a = true) :
    headNotDigit (a ++ r) = true := by
  cases a with
  | nil => exact absurd rfl h1
  | cons c t => simpa [headNotDigit] using h2

theorem splitDigits_spec (n : Nat) (tail : List Char) (h : headNotDigit tail = true) :
    splitDigitsRev ((natChars n).reverse ++ tail) = some (n, tail) := by
  have hall : ∀ ch ∈ (natChars n).reverse, isDigitC ch = true := by
    intro ch hch
    exact natChars_all_digits n ch (List.mem_reverse.mp hch)
  have hne : (natChars n).reverse ≠ [] := by
    intro hcon
    exact natChars_ne_nil n (List.reverse_eq_nil_iff.mp hcon)
  simp only [splitDigitsRev, takeWhile_digits_append _ tail hall h,
    dropWhile_digits_append _ tail hall h, isEmpty_false_of_ne_nil _ hne,
    valOfLE_natChars]
  rfl

theorem stripPrefix_append (p x : List Char) : stripPrefixChars (p ++ x) p = some x := by
  induction p with
  | nil => cases x <;> rfl
  | cons c t ih => simp [stripPrefixChars, ih]

theorem junctionT (X : List Char) :
    ("\n\nInsights:\n").data ++ (("Total Defects: ").data ++ X) = LAB_T ++ X := by
  rw [← List.append_assoc]
  rw [show ("\n\nInsights:\n").data ++ ("Total Defects: ").data = LAB_T by decide]

theorem junctionC (X : List Char) :
    ("\n").data ++ (("Critical").data ++ ((": ").data ++ X)) = LAB_C ++ X := by
  rw [show ("\n").data ++ (("Critical").data ++ ((": ").data ++ X))
      = (("\n").data ++ (("Critical").data ++ (": ").data)) ++ X by
    simp [List.append_assoc]]
  rw [show ("\n").data ++ (("Critical").data ++ (": ").data) = LAB_C by decide]

theorem junctionM (X : List Char) :
    ("\n").data ++ (("Medium").data ++ ((": ").data ++ X)) = LAB_M ++ X := by
  rw [show ("\n").data ++ (("Medium").data ++ ((": ").data ++ X))
      = (("\n").data ++ (("Medium").data ++ (": ").data)) ++ X by
    simp [List.append_assoc]]
  rw [show ("\n").data ++ (("Medium").data ++ (": ").data) = LAB_M by decide]

theorem junctionL (X : List Char) :
    ("\n").data ++ (("Low").data ++ ((": ").data ++ X)) = LAB_L ++ X := by
  rw [show ("\n").data ++ (("Low").data ++ ((": ").data ++ X))
      = (("\n").data ++ (("Low").data ++ (": ").data)) ++ X by
    simp [List.append_assoc]]
  rw [show ("\n").data ++ (("Low").data ++ (": ").data) = LAB_L by decide]

theorem junctionI (X : List Char) :
    ("\n").data ++ (("Informational").data ++ ((": ").data ++ X)) = LAB_I ++ X := by
  rw [show ("\n").data ++ (("Informational").data ++ ((": ").data ++ X))
      = (("\n").data ++ (("Informational").data ++ (": ").data)) ++ X by
    simp [List.append_assoc]]
  rw [show ("\n").data ++ (("Informational").data ++ (": ").data) = LAB_I by decide]

theorem composeBody_data (s : String) (t c m l i : Nat) :
    (composeBody s t
      [(("Critical"), c), (("Medium"), m), (("Low"), l), (("Informational"), i)] none).data
    = LAB_P ++ (s.data ++ (LAB_T ++ (natChars t ++ (LAB_C ++ (natChars c
        ++ (LAB_M ++ (natChars m ++ (LAB_L ++ (natChars l ++ (LAB_I ++ natChars i)))))))))) := by
  simp only [composeBody, natStr, Option.getD_none, List.map_cons, List.map_nil, joinNL,
    if_true]
  simp only [data_append, data_mk, List.append_assoc]
  rw [junctionT, junctionC, junctionM, junctionL, junctionI]
  rfl

theorem exceptOk_sendBranch (res : Except PyErr Unit) (r : String) :
    exceptOk (match res with
      | Except.ok _ => Except.ok ((("Email sent to ")) ++ r ++ ((" successfully.")))
      | Except.error e => Except.ok ((("Failed to send email: ")) ++ pyStr e)) = true := by
  cases res <;> rfl

/-- C5 as stated is false: in `sendmail` (and `send_report_summary_email`)
the message construction happens outside the try block, so when the email
library raises during construction — as CPython verifiably does for a
recipient containing a linefeed, rejected by the header-store guard with
this exact ValueError — the exception propagates across the interface
boundary instead of being converted to a result string. -/
theorem counterexample_C5 :
    sendmail env0 ("alice@example.com\nBcc: mallory@example.com") ("subject") ("body")
      ("smtp.gmail.com") 587 ("user@example.com") ("pw")
      = Except.error (PyErr.valueError
          ("Header values may not contain linefeed or carriage return characters")) := by
  rfl

/-- C5 amended: the read/summarize operations always return a result string
(they are total functions into String by the catch-all handlers); in the
two send operations the credential rejection and every failure of the
guarded SMTP block are converted to result strings, but the outcome of the
message construction passes through unguarded: with non-empty credentials,
whenever the library accepts the header material the operation returns a
result string, and whenever the library raises during construction that
very exception propagates uncaught. No commitment is made about WHEN the
library raises — that is environment behaviour, exercised concretely by the
counterexample and the witness. -/
theorem claim_C5_amended : ∀ (env : Env) (recipient subject body smtp_server : String)
    (smtp_port : Nat) (smtp_user smtp_password filename : String)
    (custom_message : Option String) (msg : EmailMsg) (e : PyErr),
    ¬(smtp_user = ("") ∨ smtp_password = ("")) →
    ((env.buildMsg subject smtp_user recipient body = Except.ok msg →
        exceptOk (sendmail env recipient subject body smtp_server smtp_port
          smtp_user smtp_password) = true)
     ∧ (env.buildMsg subject smtp_user recipient body = Except.error e →
        sendmail env recipient subject body smtp_server smtp_port
          smtp_user smtp_password = Except.error e)
     ∧ (env.buildMsg (("Penetration Test Report Summary: ") ++ filename) smtp_user recipient
          (composeBody (produce_report_summary env filename)
            (extract_defect_insights env filename).1
            (extract_defect_insights env filename).2 custom_message) = Except.ok msg →
        exceptOk (send_report_summary_email env recipient filename smtp_server smtp_port
          smtp_user smtp_password custom_message) = true)
     ∧ (env.buildMsg (("Penetration Test Report Summary: ") ++ filename) smtp_user recipient
          (composeBody (produce_report_summary env filename)
            (extract_defect_insights env filename).1
            (extract_defect_insights env filename).2 custom_message) = Except.error e →
        send_report_summary_email env recipient filename smtp_server smtp_port
          smtp_user smtp_password custom_message = Except.error e)) := by
  intro env r subj b srv port u p f cm msg e hcred
  refine ⟨?_, ?_, ?_, ?_⟩
  · intro hbuild
    rw [sendmail, if_neg hcred, hbuild]
    exact exceptOk_sendBranch _ r
  · intro hbuild
    rw [sendmail, if_neg hcred, hbuild]
  · intro hbuild
    simp only [send_report_summary_email]
    rw [if_neg hcred, hbuild]
    exact exceptOk_sendBranch _ r
  · intro hbuild
    simp only [send_report_summary_email]
    rw [if_neg hcred, hbuild]

/-- Witness for the amended C5: in the concrete environment, construction
succeeds on the plain ASCII header values (first and third conjunct) and a
construction failure on a linefeed recipient propagates (second conjunct). -/
theorem witness_C5 :
    exceptOk (sendmail env0 ("alice@example.com") ("subject") ("body") ("smtp.gmail.com")
      587 ("user@example.com") ("pw")) = true
    ∧ sendmail env0 ("a\nb") ("subject") ("body") ("smtp.gmail.com")
        587 ("user@example.com") ("pw")
      = Except.error (PyErr.valueError
          ("Header values may not contain linefeed or carriage return characters"))
    ∧ exceptOk (send_report_summary_email env0 ("alice@example.com") ("r.docx")
        ("smtp.gmail.com") 587 ("user@example.com") ("pw") none) = true :=
  ⟨(claim_C5_amended env0 ("alice@example.com") ("subject") ("body") ("smtp.gmail.com")
      587 ("user@example.com") ("pw") ("r.docx") none
      ⟨("subject"), ("user@example.com"), ("alice@example.com"), ("body")⟩
      (PyErr.other ("unused")) (by decide)).1 (by rfl),
   (claim_C5_amended env0 ("a\nb") ("subject") ("body") ("smtp.gmail.com")
      587 ("user@example.com") ("pw") ("r.docx") none
      ⟨("subject"), ("user@example.com"), ("a\nb"), ("body")⟩
      (PyErr.valueError
        ("Header values may not contain linefeed or carriage return characters"))
      (by decide)).2.1 (by rfl),
   (claim_C5_amended env0 ("alice@example.com") ("subject") ("body") ("smtp.gmail.com")
      587 ("user@example.com") ("pw") ("r.docx") none
      ⟨("Penetration Test Report Summary: ") ++ ("r.docx"), ("user@example.com"),
        ("alice@example.com"),
        composeBody (produce_report_summary env0 ("r.docx"))
          (extract_defect_insights env0 ("r.docx")).1
          (extract_defect_insights env0 ("r.docx")).2 none⟩
      (PyErr.other ("unused")) (by decide)).2.2.1 (by rfl)⟩

/-- C6: with an empty SMTP user or password, both send operations return
the fixed rejection string for EVERY environment (so the result does not
depend on the filesystem, the decoder or the SMTP transport: no
transport-layer action can have taken place), and for every recipient and
subject (so the credential check precedes message construction). -/
theorem claim_C6 : ∀ (env : Env) (recipient subject body smtp_server : String)
    (smtp_port : Nat) (smtp_user smtp_password filename : String)
    (custom_message : Option String),
    (smtp_user = ("") ∨ smtp_password = ("")) →
    sendmail env recipient subject body smtp_server smtp_port smtp_user smtp_password
      = Except.ok ("SMTP username and password must be provided.")
    ∧ send_report_summary_email env recipient filename smtp_server smtp_port
        smtp_user smtp_password custom_message
      = Except.ok ("SMTP username and password must be provided.") := by
  intro env r subj b srv port u p f cm h
  constructor
  · rw [sendmail, if_pos h]
  · rw [send_report_summary_email, if_pos h]

/-- Witness for C6: empty user, and a recipient whose newline would make
message construction fail — the rejection still wins. -/
theorem witness_C6 :
    sendmail env0 ("evil\nrecipient") ("s") ("b") ("smtp.gmail.com") 587 ("") ("pw")
      = Except.ok ("SMTP username and password must be provided.")
    ∧ send_report_summary_email env0 ("evil\nrecipient") ("r.docx") ("smtp.gmail.com") 587
        ("") ("pw") none
      = Except.ok ("SMTP username and password must be provided.") :=
  claim_C6 env0 ("evil\nrecipient") ("s") ("b") ("smtp.gmail.com") 587 ("") ("pw")
    ("r.docx") none (Or.inl rfl)

/-- C7: when the document load fails (missing file or decode failure), the
4-tier helper returns total 0 with all four tiers mapped to 0 and the
3-tier helper returns all three tiers mapped to 0, instead of propagating. -/
theorem claim_C7 : ∀ (env : Env) (filename : String) (e : PyErr),
    loadReport env filename = Except.error e →
    extract_defect_insights env filename
      = (0, [(("Critical"), 0), (("Medium"), 0), (("Low"), 0), (("Informational"), 0)])
    ∧ extract_high_critical_medium_counts env filename
      = [(("Critical"), 0), (("High"), 0), (("Medium"), 0)] := by
  intro env f e h
  constructor
  · simp only [extract_defect_insights, h]
    rfl
  · simp only [extract_high_critical_medium_counts, h]
    rfl

/-- Witness for C7 at a missing file in the failing environment. -/
theorem witness_C7 :
    extract_defect_insights env0 ("r.docx")
      = (0, [(("Critical"), 0), (("Medium"), 0), (("Low"), 0), (("Informational"), 0)])
    ∧ extract_high_critical_medium_counts env0 ("r.docx")
      = [(("Critical"), 0), (("High"), 0), (("Medium"), 0)] :=
  claim_C7 env0 ("r.docx")
    (PyErr.fileNotFound (("Report file \x27r.docx\x27 not found in reports directory.")))
    (by rfl)

/-- C8: splitting the body built by the Composer back on its labeled fields recovers
exactly the summary string and the tier counts that were passed in, for
every summary (including ones containing look-alike delimiters), every
total and every four counts. -/
theorem claim_C8 : ∀ (s : String) (t c m l i : Nat),
    parseBody (composeBody s t
      [(("Critical"), c), (("Medium"), m), (("Low"), l), (("Informational"), i)] none)
    = some (s, t, c, m, l, i) := by
  intro s t c m l i
  have hI : headNotDigit (LAB_I.reverse) = true := by decide
  have hIne : LAB_I.reverse ≠ [] := by decide
  have hL : headNotDigit (LAB_L.reverse) = true := by decide
  have hLne : LAB_L.reverse ≠ [] := by decide
  have hM : headNotDigit (LAB_M.reverse) = true := by decide
  have hMne : LAB_M.reverse ≠ [] := by decide
  have hC : headNotDigit (LAB_C.reverse) = true := by decide
  have hCne : LAB_C.reverse ≠ [] := by decide
  have hT : headNotDigit (LAB_T.reverse) = true := by decide
  have hTne : LAB_T.reverse ≠ [] := by decide
  simp only [parseBody, composeBody_data]
  simp only [List.reverse_append, List.append_assoc]
  rw [splitDigits_spec i _ (hnd_append _ _ hIne hI)]
  simp only [Option.some_bind]
  rw [stripPrefix_append]
  simp only [Option.some_bind]
  rw [splitDigits_spec l _ (hnd_append _ _ hLne hL)]
  simp only [Option.some_bind]
  rw [stripPrefix_append]
  simp only [Option.some_bind]
  rw [splitDigits_spec m _ (hnd_append _ _ hMne hM)]
  simp only [Option.some_bind]
  rw [stripPrefix_append]
  simp only [Option.some_bind]
  rw [splitDigits_spec c _ (hnd_append _ _ hCne hC)]
  simp only [Option.some_bind]
  rw [stripPrefix_append]
  simp only [Option.some_bind]
  rw [splitDigits_spec t _ (hnd_append _ _ hTne hT)]
  simp only [Option.some_bind]
  rw [stripPrefix_append]
  simp only [Option.some_bind]
  rw [show (s.data.reverse ++ LAB_P.reverse).reverse = LAB_P ++ s.data by
    simp [List.reverse_append]]
  rw [stripPrefix_append]
  simp only [Option.some_bind]

/-- C10: on the same paragraph sequence the two tallies agree on their
shared tiers Critical and Medium, both being the count of paragraphs whose
text case-insensitively contains the tier name. -/
theorem claim_C10 : ∀ paras : List Paragraph,
    lookupD (defectInsightsOf paras).2 ("Critical") = lookupD (hcmCountsOf paras) ("Critical")
    ∧ lookupD (defectInsightsOf paras).2 ("Medium") = lookupD (hcmCountsOf paras) ("Medium") := by
  intro paras
  constructor
  · rw [lookup_insights4 paras _ (by decide), lookup_hcm paras _ (by decide)]
  · rw [lookup_insights4 paras _ (by decide), lookup_hcm paras _ (by decide)]
